import Mathlib

/-!
# Verification of the Waku message envelope module (`src/waku/message.rs`)

Shallow embedding of the `WakuMessage` envelope: base64 payload encoding,
content-topic construction, the signed-payload convention
(`hex(signature) || hex(recovery_id) || body`), and signature verification.

Byte buffers are `List Nat` with every element `< 256`. Rust `Result` values
that can also panic (through slicing out of bounds or `.expect`) are embedded
in `RResult`, which distinguishes a typed error from a panic.

External collaborators (the base64 and hex codecs are embedded concretely,
matching the `base64` crate's standard padded alphabet and the `hex` crate;
sha256, secp256k1 and JSON serialization are abstracted, see `SecpLib`).
-/

/-! ## Base64 (standard alphabet, padded), as used by `BASE64_STANDARD` -/

/-- The base64 standard-alphabet character (as an ASCII code) for a 6-bit value. -/
def b64char (n : Nat) : Nat :=
  if n < 26 then 65 + n
  else if n < 52 then 97 + (n - 26)
  else if n < 62 then 48 + (n - 52)
  else if n = 62 then 43
  else 47

/-- Decode a base64 character (ASCII code) back to its 6-bit value; `none` for
characters outside the standard alphabet (including the padding `=`). -/
def b64val (c : Nat) : Option Nat :=
  if 65 ≤ c ∧ c ≤ 90 then some (c - 65)
  else if 97 ≤ c ∧ c ≤ 122 then some (c - 97 + 26)
  else if 48 ≤ c ∧ c ≤ 57 then some (c - 48 + 52)
  else if c = 43 then some 62
  else if c = 47 then some 63
  else none

/-- Standard padded base64 encoding of a byte sequence, producing the ASCII
codes of the encoded string (61 is `=`). -/
def base64Encode : List Nat → List Nat
  | [] => []
  | [a] => [b64char (a / 4), b64char (a % 4 * 16), 61, 61]
  | [a, b] => [b64char (a / 4), b64char (a % 4 * 16 + b / 16), b64char (b % 16 * 4), 61]
  | a :: b :: c :: rest =>
      b64char (a / 4) :: b64char (a % 4 * 16 + b / 16) ::
        b64char (b % 16 * 4 + c / 64) :: b64char (c % 64) :: base64Encode rest

/-- Standard padded base64 decoding: requires a multiple-of-4 length, canonical
padding, and zero trailing bits (the `base64` crate's standard engine rejects
non-canonical encodings). Returns `none` on malformed input. -/
def base64Decode : List Nat → Option (List Nat)
  | [] => some []
  | c1 :: c2 :: c3 :: c4 :: rest => do
      let v1 ← b64val c1
      let v2 ← b64val c2
      if c3 = 61 then
        if c4 = 61 ∧ rest = [] then
          if v2 % 16 = 0 then some [v1 * 4 + v2 / 16] else none
        else none
      else if c4 = 61 then
        if rest = [] then do
          let v3 ← b64val c3
          if v3 % 4 = 0 then some [v1 * 4 + v2 / 16, v2 % 16 * 16 + v3 / 4] else none
        else none
      else do
        let v3 ← b64val c3
        let v4 ← b64val c4
        let tail ← base64Decode rest
        some ((v1 * 4 + v2 / 16) :: (v2 % 16 * 16 + v3 / 4) :: (v3 % 4 * 64 + v4) :: tail)
  | _ => none

theorem b64val_b64char : ∀ n < 64, b64val (b64char n) = some n := by decide

theorem b64char_lt : ∀ n < 64, b64char n < 256 := by decide

theorem b64char_ne_pad : ∀ n < 64, b64char n ≠ 61 := by decide

/-- Base64 round-trip: decoding an encoded byte sequence recovers it. -/
theorem base64Decode_base64Encode :
    ∀ (bs : List Nat), (∀ x ∈ bs, x < 256) → base64Decode (base64Encode bs) = some bs := by
  intro bs
  induction bs using base64Encode.induct with
  | case1 =>
      intro _; rfl
  | case2 a =>
      intro h
      have ha : a < 256 := h a (by simp)
      have h1 : a / 4 < 64 := by omega
      have h2 : a % 4 * 16 < 64 := by omega
      simp only [base64Encode, base64Decode, b64val_b64char _ h1, b64val_b64char _ h2]
      have e1 : a % 4 * 16 % 16 = 0 := by omega
      have e2 : a / 4 * 4 + a % 4 * 16 / 16 = a := by omega
      simp [e1, e2] <;> omega
  | case3 a b =>
      intro h
      have ha : a < 256 := h a (by simp)
      have hb : b < 256 := h b (by simp)
      have h1 : a / 4 < 64 := by omega
      have h2 : a % 4 * 16 + b / 16 < 64 := by omega
      have h3 : b % 16 * 4 < 64 := by omega
      simp only [base64Encode, base64Decode, b64val_b64char _ h1, b64val_b64char _ h2,
        b64val_b64char _ h3]
      have hne : b64char (b % 16 * 4) ≠ 61 := b64char_ne_pad _ h3
      have e1 : b % 16 * 4 % 4 = 0 := by omega
      have e2 : (a / 4) * 4 + (a % 4 * 16 + b / 16) / 16 = a := by omega
      have e3 : (a % 4 * 16 + b / 16) % 16 * 16 + b % 16 * 4 / 4 = b := by omega
      simp [hne, e1, e2, e3] <;> omega
  | case4 a b c rest ih =>
      intro h
      have ha : a < 256 := h a (by simp)
      have hb : b < 256 := h b (by simp)
      have hc : c < 256 := h c (by simp)
      have hrest : ∀ x ∈ rest, x < 256 := fun x hx => h x (by simp [hx])
      have h1 : a / 4 < 64 := by omega
      have h2 : a % 4 * 16 + b / 16 < 64 := by omega
      have h3 : b % 16 * 4 + c / 64 < 64 := by omega
      have h4 : c % 64 < 64 := by omega
      simp only [base64Encode, base64Decode, b64val_b64char _ h1, b64val_b64char _ h2,
        b64val_b64char _ h3, b64val_b64char _ h4]
      have hne3 : b64char (b % 16 * 4 + c / 64) ≠ 61 := b64char_ne_pad _ h3
      have hne4 : b64char (c % 64) ≠ 61 := b64char_ne_pad _ h4
      have e1 : (a / 4) * 4 + (a % 4 * 16 + b / 16) / 16 = a := by omega
      have e2 : (a % 4 * 16 + b / 16) % 16 * 16 + (b % 16 * 4 + c / 64) / 4 = b := by omega
      have e3 : (b % 16 * 4 + c / 64) % 4 * 64 + c % 64 = c := by omega
      simp [hne3, hne4, ih hrest, e1, e2, e3] <;> omega

/-! ## Hex, as used by the `hex` crate (lowercase encoding, case-insensitive decoding) -/

/-- The lowercase hex character (ASCII code) for a 4-bit value. -/
def hexDigit (n : Nat) : Nat := if n < 10 then 48 + n else 87 + n

/-- Decode a hex character (ASCII code, either case) to its 4-bit value. -/
def hexVal (c : Nat) : Option Nat :=
  if 48 ≤ c ∧ c ≤ 57 then some (c - 48)
  else if 97 ≤ c ∧ c ≤ 102 then some (c - 97 + 10)
  else if 65 ≤ c ∧ c ≤ 70 then some (c - 65 + 10)
  else none

/-- Lowercase hex encoding of bytes, as ASCII codes (`hex::encode`). -/
def hexEncode : List Nat → List Nat
  | [] => []
  | b :: rest => hexDigit (b / 16) :: hexDigit (b % 16) :: hexEncode rest

/-- Hex decoding (`hex::decode`): fails on odd length or a non-hex character. -/
def hexDecode : List Nat → Option (List Nat)
  | [] => some []
  | c1 :: c2 :: rest => do
      let v1 ← hexVal c1
      let v2 ← hexVal c2
      let tail ← hexDecode rest
      some ((v1 * 16 + v2) :: tail)
  | _ => none

theorem hexVal_hexDigit : ∀ n < 16, hexVal (hexDigit n) = some n := by decide

theorem hexDigit_lt : ∀ n < 16, hexDigit n < 256 := by decide

/-- Hex round-trip: decoding an encoded byte sequence recovers it. -/
theorem hexDecode_hexEncode :
    ∀ (bs : List Nat), (∀ x ∈ bs, x < 256) → hexDecode (hexEncode bs) = some bs := by
  intro bs
  induction bs with
  | nil => intro _; rfl
  | cons b rest ih =>
      intro h
      have hb : b < 256 := h b (by simp)
      have h1 : b / 16 < 16 := by omega
      have h2 : b % 16 < 16 := by omega
      have e : b / 16 * 16 + b % 16 = b := by omega
      simp only [hexEncode, hexDecode, hexVal_hexDigit _ h1, hexVal_hexDigit _ h2,
        ih (fun x hx => h x (by simp [hx]))]
      simp [e]

theorem hexEncode_length : ∀ bs : List Nat, (hexEncode bs).length = 2 * bs.length := by
  intro bs
  induction bs with
  | nil => rfl
  | cons b rest ih => simp [hexEncode, ih]; omega

theorem hexEncode_bytes_lt :
    ∀ (bs : List Nat), (∀ x ∈ bs, x < 256) → ∀ y ∈ hexEncode bs, y < 256 := by
  intro bs
  induction bs with
  | nil => intro _ y hy; simp [hexEncode] at hy
  | cons b rest ih =>
      intro h y hy
      have hb : b < 256 := h b (by simp)
      simp only [hexEncode, List.mem_cons] at hy
      rcases hy with h1 | h2 | h3
      · subst h1; exact hexDigit_lt _ (by omega)
      · subst h2; exact hexDigit_lt _ (by omega)
      · exact ih (fun x hx => h x (by simp [hx])) y h3

/-! ## Errors and outcomes -/

/-- Modelled from the spec: the error kinds of the repository's `NodeError`
type (in `errors.rs`, outside `src/`), per §7 of the spec. -/
inductive NodeError where
  | base64DecodeError
  | hexDecodeError
  | signatureParseError
  | deserializationError
  | malformedPayloadError
deriving DecidableEq

/-- The outcome of a Rust method returning `NodeResult` that may also panic:
`ok`, a typed recoverable `err` (propagated with `?`), or `panicked` — a
process panic from an out-of-bounds slice or an `.expect` call. -/
inductive RResult (α : Type) where
  | ok : α → RResult α
  | err : NodeError → RResult α
  | panicked : String → RResult α
deriving DecidableEq

/-! ## External cryptographic collaborators -/

/-- Modelled from the spec: the collaborators of §6 that are not code under
`src/` — the hash primitive (`digest(bytes) -> 32-byte value`, the repository's
`sha256hash`) and the secp256k1 primitives of `libsecp256k1` (signature
parse/verify/sign, public-key representation, 64-byte signature serialization,
1-byte recovery id). The `Prop` fields state the standard contracts of these
primitives that the spec assumes (a parsed serialization is the original
signature; a signature produced by `sign` verifies under the public key derived
from the secret key). -/
structure SecpLib where
  PublicKey : Type
  SecretKey : Type
  Sig : Type
  sha256hash : List Nat → List Nat
  parse_standard_slice : List Nat → Option Sig
  verify : List Nat → Sig → PublicKey → Bool
  sign : List Nat → SecretKey → Sig × Nat
  serialize_sig : Sig → List Nat
  from_secret_key : SecretKey → PublicKey
  sha256hash_length : ∀ b, (sha256hash b).length = 32
  serialize_sig_length : ∀ s, (serialize_sig s).length = 64
  serialize_sig_bytes : ∀ s, ∀ x ∈ serialize_sig s, x < 256
  parse_serialize : ∀ s, parse_standard_slice (serialize_sig s) = some s
  sign_verify : ∀ d sk, verify d (sign d sk).1 (from_secret_key sk) = true
  sign_recid_byte : ∀ d sk, (sign d sk).2 < 256

/-! ## The `WakuMessage` module -/

/-- `WAKU_ENC_VERSION`: version 0 — encryption happens at the application
layer, not the Waku protocol layer. -/
def WAKU_ENC_VERSION : Nat := 0

/-- `WAKU_ENCODING`: the `proto` encoding recommended by Waku. -/
def WAKU_ENCODING : String := "proto"

/-- `WAKU_APP_NAME`: the app-name segment of the content topic. -/
def WAKU_APP_NAME : String := "dria"

/-- `WAKU_EPHEMERAL`: messages are short-lived and marked ephemeral. -/
def WAKU_EPHEMERAL : Bool := true

/-- `SIGNATURE_SIZE`: a 65-byte signature (64-byte RSV + 1-byte recovery id)
takes 130 hex characters. -/
def SIGNATURE_SIZE : Nat := 130

/-- The `WakuMessage` struct. `payload` holds the ASCII bytes of the base64
string; `version` is the `u8` field and `timestamp` the `u128` field, as `Nat`
(the values the module stores are the constant 0 and the clock reading). -/
structure WakuMessage where
  payload : List Nat
  content_topic : String
  version : Nat
  timestamp : Nat
  ephemeral : Bool

/-- `create_content_topic`: `format!("/{}/{}/{}/{}", WAKU_APP_NAME,
WAKU_ENC_VERSION, topic, WAKU_ENCODING)`. -/
def WakuMessage.create_content_topic (topic : String) : String :=
  "/" ++ WAKU_APP_NAME ++ "/" ++ toString WAKU_ENC_VERSION ++ "/" ++ topic ++ "/" ++ WAKU_ENCODING

/-- `WakuMessage::new`: base64-encodes the payload and fills in the constant
fields. The time source `get_current_time_nanos` (repository code outside
`src/`; per the spec a wall-clock reading in nanoseconds) is passed explicitly
as `now`. -/
def WakuMessage.new (payload : List Nat) (topic : String) (now : Nat) : WakuMessage :=
  { payload := base64Encode payload
    content_topic := WakuMessage.create_content_topic topic
    version := WAKU_ENC_VERSION
    timestamp := now
    ephemeral := WAKU_EPHEMERAL }

/-- `decode_payload`: base64-decode the stored payload (`none` embeds
`base64::DecodeError`). -/
def WakuMessage.decode_payload (m : WakuMessage) : Option (List Nat) :=
  base64Decode m.payload

/-- `parse_payload`: decode, then deserialize either the whole payload or, if
`signed`, the part after the first `SIGNATURE_SIZE` bytes. The slice
`&payload[SIGNATURE_SIZE..]` panics when the decoded payload is shorter than
`SIGNATURE_SIZE`. JSON deserialization into `T` (external `serde_json`) is
passed explicitly as `from_slice`. -/
def WakuMessage.parse_payload {T : Type} (from_slice : List Nat → Option T)
    (m : WakuMessage) (signed : Bool) : RResult T :=
  match base64Decode m.payload with
  | none => .err .base64DecodeError
  | some payload =>
      if signed = true ∧ payload.length < SIGNATURE_SIZE then
        .panicked "index out of bounds"
      else
        let body := if signed then payload.drop SIGNATURE_SIZE else payload
        match from_slice body with
        | none => .err .deserializationError
        | some t => .ok t

/-- `is_signed`: decode the payload, split it as
`(&payload[..SIGNATURE_SIZE - 2], &payload[SIGNATURE_SIZE..])` (the slices
panic when the payload is shorter than `SIGNATURE_SIZE`), hex-decode and parse
the signature (each through `.expect`, so failures panic), then verify it
against the sha256 digest of the body. -/
def WakuMessage.is_signed (L : SecpLib) (m : WakuMessage) (public_key : L.PublicKey) :
    RResult Bool :=
  match base64Decode m.payload with
  | none => .err .base64DecodeError
  | some payload =>
      if payload.length < SIGNATURE_SIZE then
        .panicked "index out of bounds"
      else
        match hexDecode (payload.take (SIGNATURE_SIZE - 2)) with
        | none => .panicked "could not decode"
        | some sigBytes =>
            match L.parse_standard_slice sigBytes with
            | none => .panicked "could not parse"
            | some signature =>
                .ok (L.verify (L.sha256hash (payload.drop SIGNATURE_SIZE)) signature public_key)

/-- Modelled from the spec: the Pack operation of the Signed-Body Codec (§4.2)
— `hex(signature) || hex(recovery_id) || body` as raw bytes (the hex blocks
are ASCII characters), fed to `Envelope::new` as the payload. -/
def pack (L : SecpLib) (signature : L.Sig) (recid : Nat) (body : List Nat) : List Nat :=
  hexEncode (L.serialize_sig signature) ++ hexEncode [recid] ++ body

/-! ## The content-topic grammar -/

/-- A slash-free string: a single content-topic segment. -/
def noSlash (s : String) : Prop := '/' ∉ s.toList

/-- The content-topic grammar `/{app-name}/{version}/{topic}/{encoding}`: a
leading slash followed by four slash-separated, slash-free segments. -/
def matchesContentTopicGrammar (s : String) : Prop :=
  ∃ app ver top enc : String,
    noSlash app ∧ noSlash ver ∧ noSlash top ∧ noSlash enc ∧
    s = "/" ++ app ++ "/" ++ ver ++ "/" ++ top ++ "/" ++ enc

/-! ## A concrete instantiation of the external collaborators

A small executable model of the hash/signature collaborators, used to
evaluate the theorems below on concrete inputs. -/

/-- Structurally valid toy signatures: 64-byte sequences. -/
def ToySig : Type := {l : List Nat // l.length = 64 ∧ ∀ x ∈ l, x < 256}

/-- The canonical toy signature bytes for key `k`: 63 zero bytes then `k % 256`. -/
def toySigBytes (k : Nat) : List Nat := List.replicate 63 0 ++ [k % 256]

theorem toySigBytes_spec (k : Nat) :
    (toySigBytes k).length = 64 ∧ ∀ x ∈ toySigBytes k, x < 256 := by
  refine ⟨by simp [toySigBytes], ?_⟩
  intro x hx
  simp only [toySigBytes, List.mem_append, List.mem_replicate, List.mem_singleton] at hx
  rcases hx with ⟨_, h⟩ | h <;> omega

/-- A concrete `SecpLib`: keys are `Nat` (public = secret), signing yields the
canonical 64-byte sequence for the key, verification checks for it. -/
def toyLib : SecpLib where
  PublicKey := Nat
  SecretKey := Nat
  Sig := ToySig
  sha256hash := fun _ => List.replicate 32 0
  parse_standard_slice := fun bs =>
    if h : bs.length = 64 ∧ ∀ x ∈ bs, x < 256 then some ⟨bs, h⟩ else none
  verify := fun _ s pk => decide (s.val = toySigBytes pk)
  sign := fun _ sk => (⟨toySigBytes sk, toySigBytes_spec sk⟩, 0)
  serialize_sig := Subtype.val
  from_secret_key := id
  sha256hash_length := fun _ => by simp
  serialize_sig_length := fun s => s.2.1
  serialize_sig_bytes := fun s => s.2.2
  parse_serialize := fun s => dif_pos s.2
  sign_verify := fun d sk => by simp
  sign_recid_byte := fun d sk => by simp

/-- A concrete public key for the toy library. -/
def toyPk : toyLib.PublicKey := (5 : Nat)

/-- A concrete secret key for the toy library. -/
def toySk : toyLib.SecretKey := (5 : Nat)

/-! ## String helper lemmas -/

theorem toList_append (a b : String) : (a ++ b).toList = a.toList ++ b.toList :=
  String.data_append a b

theorem noSlash_count {t : String} (h : noSlash t) : t.toList.count '/' = 0 :=
  List.count_eq_zero.mpr h

/-- A string matching the content-topic grammar has exactly four slashes. -/
theorem grammar_slash_count {s : String} (h : matchesContentTopicGrammar s) :
    s.toList.count '/' = 4 := by
  obtain ⟨app, ver, top, enc, happ, hver, htop, henc, rfl⟩ := h
  have hone : ("/" : String).toList.count '/' = 1 := by decide
  simp only [toList_append, List.count_append, hone,
    noSlash_count happ, noSlash_count hver, noSlash_count htop, noSlash_count henc]

/-! ## Evaluation lemmas for the embedded operations -/

/-- Evaluate `is_signed` on the success path: the payload decodes, is at least
130 bytes, its 128-character prefix hex-decodes and the bytes parse as a
signature. -/
theorem is_signed_eq_verify (L : SecpLib) (pk : L.PublicKey) (m : WakuMessage)
    (p sigBytes : List Nat) (sig : L.Sig)
    (hdec : base64Decode m.payload = some p) (hlen : 130 ≤ p.length)
    (hhex : hexDecode (p.take 128) = some sigBytes)
    (hparse : L.parse_standard_slice sigBytes = some sig) :
    m.is_signed L pk = .ok (L.verify (L.sha256hash (p.drop 130)) sig pk) := by
  simp only [WakuMessage.is_signed, SIGNATURE_SIZE, hdec, Nat.reduceSub, hhex, hparse]
  rw [if_neg (by omega)]

/-- Evaluate `is_signed` when the payload is not valid base64: the `?` on
`decode_payload` propagates a typed error. -/
theorem is_signed_base64_err (L : SecpLib) (pk : L.PublicKey) (m : WakuMessage)
    (hdec : base64Decode m.payload = none) :
    m.is_signed L pk = .err .base64DecodeError := by
  simp only [WakuMessage.is_signed, hdec]

/-- Evaluate `is_signed` when the 128-character prefix is not valid hex: the
`.expect("could not decode")` panics. -/
theorem is_signed_hex_panic (L : SecpLib) (pk : L.PublicKey) (m : WakuMessage)
    (p : List Nat) (hdec : base64Decode m.payload = some p) (hlen : 130 ≤ p.length)
    (hhex : hexDecode (p.take 128) = none) :
    m.is_signed L pk = .panicked "could not decode" := by
  simp only [WakuMessage.is_signed, SIGNATURE_SIZE, hdec, Nat.reduceSub, hhex]
  rw [if_neg (by omega)]

/-- Evaluate `is_signed` when the decoded signature bytes are not structurally
valid: the `.expect("could not parse")` panics. -/
theorem is_signed_parse_panic (L : SecpLib) (pk : L.PublicKey) (m : WakuMessage)
    (p sigBytes : List Nat) (hdec : base64Decode m.payload = some p) (hlen : 130 ≤ p.length)
    (hhex : hexDecode (p.take 128) = some sigBytes)
    (hparse : L.parse_standard_slice sigBytes = none) :
    m.is_signed L pk = .panicked "could not parse" := by
  simp only [WakuMessage.is_signed, SIGNATURE_SIZE, hdec, Nat.reduceSub, hhex, hparse]
  rw [if_neg (by omega)]

/-- Evaluate `parse_payload` in signed mode when the decoded payload is shorter
than `SIGNATURE_SIZE`: the slice `&payload[SIGNATURE_SIZE..]` panics. -/
theorem parse_payload_signed_short {T : Type} (fs : List Nat → Option T)
    (m : WakuMessage) (p : List Nat)
    (hdec : base64Decode m.payload = some p) (hlen : p.length < 130) :
    m.parse_payload fs true = .panicked "index out of bounds" := by
  simp only [WakuMessage.parse_payload, SIGNATURE_SIZE, hdec]
  rw [if_pos ⟨trivial, hlen⟩]

/-- Evaluate `parse_payload` in signed mode on the success path. -/
theorem parse_payload_signed_eval {T : Type} (fs : List Nat → Option T)
    (m : WakuMessage) (p : List Nat) (v : T)
    (hdec : base64Decode m.payload = some p) (hlen : 130 ≤ p.length)
    (hfs : fs (p.drop 130) = some v) :
    m.parse_payload fs true = .ok v := by
  simp only [WakuMessage.parse_payload, SIGNATURE_SIZE, hdec, if_true, hfs]
  rw [if_neg (by simp; omega)]

/-- Evaluate `parse_payload` in unsigned mode on the success path. -/
theorem parse_payload_unsigned_eval {T : Type} (fs : List Nat → Option T)
    (m : WakuMessage) (p : List Nat) (v : T)
    (hdec : base64Decode m.payload = some p) (hfs : fs p = some v) :
    m.parse_payload fs false = .ok v := by
  simp only [WakuMessage.parse_payload, SIGNATURE_SIZE, hdec]
  rw [if_neg (by simp)]
  simp [hfs]

/-! ## Properties of `pack` -/

theorem pack_length (L : SecpLib) (sig : L.Sig) (recid : Nat) (body : List Nat) :
    (pack L sig recid body).length = 130 + body.length := by
  simp [pack, hexEncode_length, L.serialize_sig_length]
  omega

theorem pack_bytes_lt (L : SecpLib) (sig : L.Sig) (recid : Nat) (body : List Nat)
    (hr : recid < 256) (hb : ∀ x ∈ body, x < 256) :
    ∀ x ∈ pack L sig recid body, x < 256 := by
  intro x hx
  simp only [pack, List.mem_append] at hx
  rcases hx with (h | h) | h
  · exact hexEncode_bytes_lt _ (L.serialize_sig_bytes sig) x h
  · exact hexEncode_bytes_lt [recid] (by simpa) x h
  · exact hb x h

theorem pack_take (L : SecpLib) (sig : L.Sig) (recid : Nat) (body : List Nat) :
    (pack L sig recid body).take 128 = hexEncode (L.serialize_sig sig) := by
  have hl : (hexEncode (L.serialize_sig sig)).length = 128 := by
    rw [hexEncode_length, L.serialize_sig_length]
  rw [pack, List.append_assoc]
  exact List.take_left' hl

theorem pack_drop (L : SecpLib) (sig : L.Sig) (recid : Nat) (body : List Nat) :
    (pack L sig recid body).drop 130 = body := by
  have hl : (hexEncode (L.serialize_sig sig) ++ hexEncode [recid]).length = 130 := by
    simp [hexEncode_length, L.serialize_sig_length]
  rw [pack]
  exact List.drop_left' hl

/-! ## Decidability instances for concrete evaluation -/

instance : DecidableEq ToySig :=
  inferInstanceAs (DecidableEq {l : List Nat // l.length = 64 ∧ ∀ x ∈ l, x < 256})

instance : DecidableEq toyLib.Sig := inferInstanceAs (DecidableEq ToySig)

instance (s : String) : Decidable (noSlash s) :=
  inferInstanceAs (Decidable ('/' ∉ s.toList))

/-! ## Concrete inputs used to evaluate the theorems -/

/-- 130 ASCII `'0'` characters: a well-formed signed-payload prefix (the
signature block hex-decodes to 64 zero bytes) followed by an empty body. -/
def zeroHexPayload : List Nat := List.replicate 130 48

/-- A decoded payload agreeing with `zeroHexPayload` on `[0,128)` and on
`[130,end)` but differing in the recovery-id bytes at `[128,130)` (255 is not
even a valid hex character). -/
def altRecidPayload : List Nat := List.replicate 128 48 ++ [255, 0]

/-- The toy signature whose serialization is 64 zero bytes. -/
def zeroSig : ToySig := ⟨List.replicate 64 0, by decide⟩

/-- 130 ASCII `'z'` characters: long enough, but the 128-character signature
prefix is not valid hex. -/
def badHexPayload : List Nat := List.replicate 130 122

/-- An envelope whose stored payload (a single `'!'`) is not valid base64. -/
def mBad64 : WakuMessage := ⟨[33], "", 0, 0, true⟩

/-! ## The claims -/

/-- C1: for every envelope whose decoded payload is at least 130 bytes,
`is_signed` interprets bytes `[0,128)` of the decoded payload as the
hex-encoded 64-byte signature and bytes `[130,end)` as the body, skipping the
two recovery-id hex characters at `[128,130)`; it hex-decodes and parses the
signature as a standard (non-recoverable) secp256k1 signature, computes the
32-byte sha256 digest of the body bytes, and returns the boolean result of
verifying that signature against the digest under the supplied public key. -/
theorem c1_is_signed_verifies_plain_signature (L : SecpLib) (pk : L.PublicKey)
    (m : WakuMessage) (p sigBytes : List Nat) (sig : L.Sig)
    (hdec : base64Decode m.payload = some p) (hlen : 130 ≤ p.length)
    (hhex : hexDecode (p.take 128) = some sigBytes)
    (hparse : L.parse_standard_slice sigBytes = some sig) :
    m.is_signed L pk = .ok (L.verify (L.sha256hash (p.drop 130)) sig pk) :=
  is_signed_eq_verify L pk m p sigBytes sig hdec hlen hhex hparse

set_option maxRecDepth 10000 in
/-- C1 witness: evaluated on the envelope built from 130 `'0'` characters
under the concrete toy library. -/
theorem c1_witness :
    (WakuMessage.new zeroHexPayload "topic" 1).is_signed toyLib toyPk =
      .ok (toyLib.verify (toyLib.sha256hash (zeroHexPayload.drop 130)) zeroSig toyPk) :=
  c1_is_signed_verifies_plain_signature toyLib toyPk _ zeroHexPayload
    (List.replicate 64 0) zeroSig
    (base64Decode_base64Encode zeroHexPayload (by decide)) (by decide) (by decide) rfl

/-- C2: for every body, signing the sha256 digest of the body with a secret
key, packing `hex(signature) || hex(recovery_id) || body`, wrapping via `new`,
and calling `is_signed` with the public key derived from that secret key
returns `Ok(true)`. -/
theorem c2_sign_pack_verify (L : SecpLib) (sk : L.SecretKey) (body : List Nat)
    (topic : String) (now : Nat) (hb : ∀ x ∈ body, x < 256) :
    (WakuMessage.new
        (pack L (L.sign (L.sha256hash body) sk).1 (L.sign (L.sha256hash body) sk).2 body)
        topic now).is_signed L (L.from_secret_key sk) = .ok true := by
  have hr := L.sign_recid_byte (L.sha256hash body) sk
  have hbytes := pack_bytes_lt L (L.sign (L.sha256hash body) sk).1
    (L.sign (L.sha256hash body) sk).2 body hr hb
  have hdec := base64Decode_base64Encode _ hbytes
  have hlen : 130 ≤ (pack L (L.sign (L.sha256hash body) sk).1
      (L.sign (L.sha256hash body) sk).2 body).length := by
    rw [pack_length]; omega
  have hhex : hexDecode ((pack L (L.sign (L.sha256hash body) sk).1
      (L.sign (L.sha256hash body) sk).2 body).take 128) =
      some (L.serialize_sig (L.sign (L.sha256hash body) sk).1) := by
    rw [pack_take]
    exact hexDecode_hexEncode _ (L.serialize_sig_bytes _)
  rw [is_signed_eq_verify L (L.from_secret_key sk) _ _ _ _ hdec hlen hhex
    (L.parse_serialize _), pack_drop, L.sign_verify]

/-- C2 witness: evaluated with the toy library, the empty body and key 5. -/
theorem c2_witness :
    (WakuMessage.new
        (pack toyLib (toyLib.sign (toyLib.sha256hash []) toySk).1
          (toyLib.sign (toyLib.sha256hash []) toySk).2 [])
        "topic" 1).is_signed toyLib (toyLib.from_secret_key toySk) = .ok true :=
  c2_sign_pack_verify toyLib toySk [] "topic" 1 (by simp)

/-- C3: for every byte sequence `b` and topic `t`, `decode_payload (new b t)`
returns the original bytes (base64 encode then decode round-trips), and `new`
itself has no failure modes (it is a total function into `WakuMessage`). -/
theorem c3_decode_payload_roundtrip (b : List Nat) (t : String) (now : Nat)
    (hb : ∀ x ∈ b, x < 256) :
    (WakuMessage.new b t now).decode_payload = some b :=
  base64Decode_base64Encode b hb

/-- C3 witness: evaluated on the bytes `[0, 255, 7]`. -/
theorem c3_witness : (WakuMessage.new [0, 255, 7] "x" 0).decode_payload = some [0, 255, 7] :=
  c3_decode_payload_roundtrip [0, 255, 7] "x" 0 (by decide)

/-- C4 counterexample: on the envelope built from the two bytes `{}` — valid
base64 whose decoded payload has length 2 < 130 — `parse_payload(signed=true)`
panics on the out-of-bounds slice `&payload[130..]`; it does not return a
typed, recoverable error as the claim states. -/
theorem c4_counterexample :
    (WakuMessage.new [123, 125] "t" 1).parse_payload (fun l => some l) true =
      RResult.panicked "index out of bounds" := by decide

/-- C4 amended: for every envelope whose payload is valid base64 but decodes
to fewer than 130 bytes, `parse_payload(signed=true)` panics on the
out-of-bounds slice rather than returning a typed error; a reimplementation
must convert this case into a malformed-input error. -/
theorem c4_short_signed_payload_panics {T : Type} (fs : List Nat → Option T)
    (m : WakuMessage) (p : List Nat)
    (hdec : base64Decode m.payload = some p) (hlen : p.length < 130) :
    m.parse_payload fs true = .panicked "index out of bounds" :=
  parse_payload_signed_short fs m p hdec hlen

/-- C4 witness: the amended claim evaluated on a concrete two-byte payload. -/
theorem c4_witness :
    (WakuMessage.new [123, 125] "q" 2).parse_payload (fun _ => some 0) true =
      RResult.panicked "index out of bounds" :=
  c4_short_signed_payload_panics (fun _ => some 0) _ [123, 125]
    (base64Decode_base64Encode [123, 125] (by decide)) (by decide)

set_option maxRecDepth 10000 in
/-- C5 counterexample: on the envelope whose decoded payload is 130 `'z'`
characters — valid base64 and long enough, but the 128-character signature
prefix is not valid hex — `is_signed` panics via `.expect("could not decode")`
instead of returning a typed error, refuting the claim that `is_signed` never
panics on malformed hex. -/
theorem c5_counterexample :
    (WakuMessage.new badHexPayload "t" 1).is_signed toyLib toyPk =
      RResult.panicked "could not decode" := by decide

/-- C5 amended: `is_signed` returns a typed, recoverable error when the
payload is not valid base64 (the `?` on `decode_payload`), but on a payload of
at least 130 bytes it panics via `.expect` when the 128-character signature
prefix is not valid hex, and panics via `.expect` when the decoded signature
bytes do not form a structurally valid secp256k1 signature. -/
theorem c5_is_signed_error_behavior (L : SecpLib) (pk : L.PublicKey) (m : WakuMessage) :
    (base64Decode m.payload = none → m.is_signed L pk = .err .base64DecodeError) ∧
    (∀ p, base64Decode m.payload = some p → 130 ≤ p.length →
      hexDecode (p.take 128) = none → m.is_signed L pk = .panicked "could not decode") ∧
    (∀ p sigBytes, base64Decode m.payload = some p → 130 ≤ p.length →
      hexDecode (p.take 128) = some sigBytes → L.parse_standard_slice sigBytes = none →
      m.is_signed L pk = .panicked "could not parse") :=
  ⟨fun h => is_signed_base64_err L pk m h,
   fun p h1 h2 h3 => is_signed_hex_panic L pk m p h1 h2 h3,
   fun p sb h1 h2 h3 h4 => is_signed_parse_panic L pk m p sb h1 h2 h3 h4⟩

/-- C5 witness: the typed-error branch evaluated on an envelope whose stored
payload is not valid base64. -/
theorem c5_witness :
    mBad64.is_signed toyLib toyPk = RResult.err NodeError.base64DecodeError :=
  (c5_is_signed_error_behavior toyLib toyPk mBad64).1 (by decide)

/-- C6: `parse_payload(signed=true)` on a signed-and-packed envelope skips
exactly the first 130 bytes of the decoded payload and deserializes the
remainder back to the original body value. The embedded operations are pure
functions of the envelope alone (the Rust methods take `&self` and touch no
mutable state), so the result is the same whether or not `is_signed` was
called beforehand. -/
theorem c6_parse_payload_signed_roundtrip (L : SecpLib) {T : Type}
    (to_vec : T → List Nat) (fs : List Nat → Option T) (v : T) (sk : L.SecretKey)
    (topic : String) (now : Nat)
    (hser : fs (to_vec v) = some v) (hb : ∀ x ∈ to_vec v, x < 256) :
    (WakuMessage.new
        (pack L (L.sign (L.sha256hash (to_vec v)) sk).1
          (L.sign (L.sha256hash (to_vec v)) sk).2 (to_vec v))
        topic now).parse_payload fs true = .ok v := by
  have hr := L.sign_recid_byte (L.sha256hash (to_vec v)) sk
  have hbytes := pack_bytes_lt L (L.sign (L.sha256hash (to_vec v)) sk).1
    (L.sign (L.sha256hash (to_vec v)) sk).2 (to_vec v) hr hb
  refine parse_payload_signed_eval fs _ _ v (base64Decode_base64Encode _ hbytes) ?_ ?_
  · rw [pack_length]; omega
  · rw [pack_drop]; exact hser

/-- C6 witness: evaluated with the toy library on the identity serializer and
the body `[1, 2, 3]`. -/
theorem c6_witness :
    (WakuMessage.new
        (pack toyLib (toyLib.sign (toyLib.sha256hash (id [1, 2, 3])) toySk).1
          (toyLib.sign (toyLib.sha256hash (id [1, 2, 3])) toySk).2 (id [1, 2, 3]))
        "t" 1).parse_payload Option.some true = .ok [1, 2, 3] :=
  c6_parse_payload_signed_roundtrip toyLib id Option.some [1, 2, 3] toySk "t" 1 rfl (by decide)

/-- C7: for every structured value `v`, serializing it to bytes, wrapping the
bytes via `new`, and calling `parse_payload(signed=false)` returns `Ok` of a
value equal to `v`. -/
theorem c7_parse_payload_unsigned_roundtrip {T : Type} (to_vec : T → List Nat)
    (fs : List Nat → Option T) (v : T) (topic : String) (now : Nat)
    (hser : fs (to_vec v) = some v) (hb : ∀ x ∈ to_vec v, x < 256) :
    (WakuMessage.new (to_vec v) topic now).parse_payload fs false = .ok v :=
  parse_payload_unsigned_eval fs _ (to_vec v) v (base64Decode_base64Encode _ hb) hser

/-- C7 witness: evaluated on the identity serializer and the body `[9, 8]`. -/
theorem c7_witness :
    (WakuMessage.new (id [9, 8]) "t" 3).parse_payload Option.some false = .ok [9, 8] :=
  c7_parse_payload_unsigned_roundtrip id Option.some [9, 8] "t" 3 rfl (by decide)

/-- C8 counterexample: with topic `"a/b"` the constructed content topic is
`"/dria/0/a/b/proto"`, which contains five slashes and therefore cannot match
the four-slash-separated-segment grammar: the grammar invariant fails for
topic strings containing `/`, refuting the claim's "for every topic string". -/
theorem c8_counterexample :
    ¬ matchesContentTopicGrammar (WakuMessage.new [] "a/b" 1).content_topic := by
  intro h
  have h4 := grammar_slash_count h
  have he : (WakuMessage.new [] "a/b" 1).content_topic = "/dria/0/a/b/proto" := rfl
  rw [he] at h4
  exact absurd h4 (by decide)

/-- C8 amended: every envelope produced by `new(payload_bytes, topic)` with a
topic **not containing `/`** satisfies the data-model invariants — its payload
field is valid base64 of the input bytes, its content topic matches the
four-slash-separated-segment grammar, its version is the fixed encryption
version 0, its ephemeral flag is true, and its timestamp is non-zero (given a
non-zero reading of the external time source). -/
theorem c8_new_invariants (b : List Nat) (t : String) (now : Nat)
    (hb : ∀ x ∈ b, x < 256) (ht : noSlash t) (hnow : 0 < now) :
    (WakuMessage.new b t now).payload = base64Encode b ∧
    base64Decode (WakuMessage.new b t now).payload = some b ∧
    matchesContentTopicGrammar (WakuMessage.new b t now).content_topic ∧
    (WakuMessage.new b t now).version = WAKU_ENC_VERSION ∧
    (WakuMessage.new b t now).ephemeral = true ∧
    0 < (WakuMessage.new b t now).timestamp :=
  ⟨rfl, base64Decode_base64Encode b hb,
   ⟨"dria", "0", t, "proto", by decide, by decide, ht, by decide, rfl⟩,
   rfl, rfl, hnow⟩

/-- C8 witness: the amended invariants evaluated on bytes `[1]` and topic
`"test-topic"` at time 7. -/
theorem c8_witness :
    (WakuMessage.new [1] "test-topic" 7).payload = base64Encode [1] ∧
    base64Decode (WakuMessage.new [1] "test-topic" 7).payload = some [1] ∧
    matchesContentTopicGrammar (WakuMessage.new [1] "test-topic" 7).content_topic ∧
    (WakuMessage.new [1] "test-topic" 7).version = WAKU_ENC_VERSION ∧
    (WakuMessage.new [1] "test-topic" 7).ephemeral = true ∧
    0 < (WakuMessage.new [1] "test-topic" 7).timestamp :=
  c8_new_invariants [1] "test-topic" 7 (by decide) (by decide) (by decide)

/-- C9: `create_content_topic` is a pure formatting function (total, no I/O):
for every topic string `x` not containing `/`, it returns
`"/dria/0/" ++ x ++ "/proto"`. -/
theorem c9_create_content_topic_format (x : String) (hx : noSlash x) :
    WakuMessage.create_content_topic x = "/dria/0/" ++ x ++ "/proto" := by
  have h1 : ("/" ++ WAKU_APP_NAME ++ "/" ++ toString WAKU_ENC_VERSION ++ "/" : String) =
      "/dria/0/" := rfl
  have h2 : ("/" ++ WAKU_ENCODING : String) = "/proto" := rfl
  unfold WakuMessage.create_content_topic
  rw [String.append_assoc, h2, h1]

/-- C9 witness: evaluated on the topic `"x"`. -/
theorem c9_witness :
    WakuMessage.create_content_topic "x" = "/dria/0/" ++ "x" ++ "/proto" :=
  c9_create_content_topic_format "x" (by decide)

/-- C10: for any two envelopes whose decoded payloads are at least 130 bytes
and agree on bytes `[0,128)` and `[130,end)` but differ arbitrarily in the two
bytes at `[128,130)` (valid hex or not), `is_signed` with the same public key
produces the same result: the recovery-id position is never read. -/
theorem c10_is_signed_ignores_recovery_id (L : SecpLib) (pk : L.PublicKey)
    (m1 m2 : WakuMessage) (p1 p2 : List Nat)
    (hdec1 : base64Decode m1.payload = some p1) (hdec2 : base64Decode m2.payload = some p2)
    (hlen1 : 130 ≤ p1.length) (hlen2 : 130 ≤ p2.length)
    (hpre : p1.take 128 = p2.take 128) (hsuf : p1.drop 130 = p2.drop 130) :
    m1.is_signed L pk = m2.is_signed L pk := by
  simp only [WakuMessage.is_signed, SIGNATURE_SIZE, hdec1, hdec2, Nat.reduceSub]
  rw [if_neg (by omega), if_neg (by omega), hpre, hsuf]

set_option maxRecDepth 10000 in
/-- C10 witness: evaluated on two payloads that agree outside the recovery-id
bytes, one holding `'0''0'` there and the other the bytes 255 and 0. -/
theorem c10_witness :
    (WakuMessage.new zeroHexPayload "t" 1).is_signed toyLib toyPk =
      (WakuMessage.new altRecidPayload "t" 1).is_signed toyLib toyPk :=
  c10_is_signed_ignores_recovery_id toyLib toyPk _ _ zeroHexPayload altRecidPayload
    (base64Decode_base64Encode _ (by decide)) (base64Decode_base64Encode _ (by decide))
    (by decide) (by decide) (by decide) (by decide)
